import Mathlib

/-!
Verification development for the batch-backtesting core of the repository:
the performance-ratio calculator (`src/utils/metrics_calculator.py`), the
batch execution service (`src/services/batch_backtesting_service.py`) and the
HTTP-facing registry operations (`src/routers/backtesting.py`).

Modelling conventions:
* Python scalar values that flow through the calculator are modelled by
  `PyVal`: `none` is Python `None`, `num x` is a numeric value (every Python
  float is a rational number, so `ℚ` is exact for concrete inputs), and
  `obj` stands for a non-numeric, truthy, unorderable object such as a
  non-empty dict (for which `float(...)` and ordering comparisons raise
  `TypeError`).
* Fallible Python computations are embedded in `Except Unit`: `.error ()`
  is a raised exception.
* Arithmetic is idealized over `ℚ`/`ℝ` (no floating-point rounding or
  overflow; `np.isfinite` is therefore the constant `true` in this model).
* `numpy` reductions (`mean`, `min`, `cumprod`, `maximum.accumulate`) are
  given explicit list implementations.
-/

inductive PyVal where
  | none
  | num (x : ℚ)
  | obj
deriving DecidableEq, Repr

namespace PyVal

/-- Python truthiness of a scalar: `None` and `0` are falsy; a non-empty
dict (`obj`) is truthy. -/
def truthy : PyVal → Bool
  | .none => false
  | .num x => x != 0
  | .obj => true

/-- Python `a or b`. -/
def pyOr (a b : PyVal) : PyVal := if a.truthy then a else b

/-- Python `float(v)`: succeeds on numbers, raises `TypeError` on `None`
and on non-numeric objects. -/
def pyFloat : PyVal → Except Unit ℚ
  | .num x => .ok x
  | _ => .error ()

/-- Python `a > b`: defined between numbers, raises `TypeError` when a
non-numeric object (or `None`) is involved. -/
def pyGT : PyVal → PyVal → Except Unit Bool
  | .num a, .num b => .ok (decide (b < a))
  | _, _ => .error ()

/-- Python `a - b` on scalars, raising on non-numbers. -/
def pySub : PyVal → PyVal → Except Unit ℚ
  | .num a, .num b => .ok (a - b)
  | _, _ => .error ()

/-- Python `v != 0`: numeric comparison for numbers; comparing a dict or
`None` with `0` is `True` (no exception). -/
def pyNeZero : PyVal → Bool
  | .num x => x != 0
  | _ => true

end PyVal

/-- The aggregate result bundle consumed by `calculate_performance_ratios`
(the `results` dict).  Each field holds the dict's value under the
corresponding key; the default mirrors the `.get` default at the use site
(`results.get("net_pnl_pct", 0)`, `results.get("start_time")`,
`results.get("end_time")`, `results.get("n_days", 0)`).  The bundle may
also carry a `max_drawdown_pct` entry; the calculator's reads are what the
theorems below examine. -/
structure Bundle where
  net_pnl_pct : PyVal := .num 0
  start_time : PyVal := .none
  end_time : PyVal := .none
  n_days : PyVal := .num 0
  max_drawdown_pct : PyVal := .none
deriving DecidableEq, Repr

/-- Duration in days, from `metrics_calculator.py` lines 17-26:
`if start_ts and end_ts and end_ts > start_ts: n_days = (end_ts - start_ts)
/ 86400.0 else: n_days = float(results.get("n_days", 0) or 0.0)`.
Python's `and` short-circuits, so the (possibly raising) comparison is
evaluated only when both timestamps are truthy. -/
def computeNDays (b : Bundle) : Except Unit ℚ :=
  if b.start_time.truthy && b.end_time.truthy then
    match PyVal.pyGT b.end_time b.start_time with
    | .error e => .error e
    | .ok true =>
        match PyVal.pySub b.end_time b.start_time with
        | .error e => .error e
        | .ok d => .ok (d / 86400)
    | .ok false => PyVal.pyFloat (PyVal.pyOr b.n_days (.num 0))
  else
    PyVal.pyFloat (PyVal.pyOr b.n_days (.num 0))

/-- Per-trade return extraction, from `metrics_calculator.py` lines 50-64.
Each list element models the trade record's `net_pnl_pct` value (the call
sites pass executors as mappings, so the `executor.get("net_pnl_pct", 0)`
branch applies; a record without the key contributes `num 0`).  The loop
appends `float(pnl_pct) / 100.0` for every entry with
`pnl_pct is not None and pnl_pct != 0`, raising at the first entry whose
`float(...)` fails. -/
def extractExecutorReturns : List PyVal → Except Unit (List ℚ)
  | [] => .ok []
  | e :: rest =>
    if e ≠ PyVal.none && e.pyNeZero then
      match PyVal.pyFloat e with
      | .error u => .error u
      | .ok x =>
          match extractExecutorReturns rest with
          | .error u => .error u
          | .ok t => .ok (x / 100 :: t)
    else
      extractExecutorReturns rest

/-- Preparation of the return series, `metrics_calculator.py` lines 46-67:
use the executors when the list is non-empty
(`if executors and len(executors) > 0`), otherwise fall back to the single
aggregate return when it is non-zero (`if net_pnl_pct != 0`). -/
def prepareReturns (netPnlPct : ℚ) (executors : List PyVal) :
    Except Unit (List ℚ) :=
  if executors ≠ [] then
    extractExecutorReturns executors
  else
    .ok (if netPnlPct ≠ 0 then [netPnlPct / 100] else [])

/-- `np.mean` of a list of rationals (only applied to non-empty lists in
the calculator; `ℚ` division by zero yields `0` for the empty list). -/
def qmean (l : List ℚ) : ℚ := l.sum / l.length

/-- `np.min` of a list (only applied to non-empty lists). -/
def listMin : List ℚ → ℚ
  | [] => 0
  | x :: xs => xs.foldl min x

/-- `np.cumprod(1.0 + r)`: the running products `∏_{j ≤ i} (1 + r j)`. -/
def cumProd (r : List ℚ) : List ℚ :=
  (r.map (fun x => 1 + x)).scanl (· * ·) 1 |>.tail

/-- `np.maximum.accumulate`: the running maxima of a list. -/
def runningMax : List ℚ → List ℚ
  | [] => []
  | x :: xs => (xs.scanl max x)

/-- Annualization factor, `metrics_calculator.py` lines 75-80:
`(len(r) / n_days) * 365.0` when `n_days` is truthy and positive and the
series has more than one element, else the fixed default `252.0`. -/
def periodsPerYear (nDays : ℚ) (r : List ℚ) : ℚ :=
  if nDays ≠ 0 ∧ 0 < nDays ∧ 1 < r.length then
    ((r.length : ℚ) / nDays) * 365
  else 252

/-- Maximum drawdown, `metrics_calculator.py` lines 114-128.  With more
than one return: minimum of `(cumulative - running_max) / running_max`
over the cumulative-product equity curve.  With exactly one strictly
negative return: that return itself.  Otherwise the conservative estimate
`-0.01`. -/
def maxDrawdown (r : List ℚ) : ℚ :=
  if 1 < r.length then
    let cumulative := cumProd r
    let rm := runningMax cumulative
    listMin (List.zipWith (fun c m => (c - m) / m) cumulative rm)
  else
    match r with
    | [x] => if x < 0 then x else -(1/100)
    | _ => -(1/100)

/-- A value that may be the `numpy` positive-infinity sentinel.  In the
idealized real-number model every arithmetic result is finite, so `inf`
arises only from the calculator's explicit `np.inf` branches. -/
inductive RVal where
  | fin (x : ℝ)
  | inf

/-- `np.isfinite` on a value of the idealized real-number model: always
true (float overflow to infinity is not modelled). -/
def pyIsFinite (_ : ℝ) : Bool := true

/-- Sharpe ratio, `metrics_calculator.py` lines 31-43:
`annual_return = (net_pnl_pct / 100) * (365 / n_days)`, divided by the
assumed annualized volatility `0.01 * sqrt(365)` (guarded, as in the
source, by `annual_volatility > 0`); `0.0` when `n_days` is falsy or
non-positive. -/
noncomputable def sharpeRatio (netPnlPct nDays : ℚ) : ℝ :=
  if nDays ≠ 0 ∧ 0 < nDays then
    let annualReturn : ℝ := ((netPnlPct : ℝ) / 100) * (365 / (nDays : ℝ))
    let annualVolatility : ℝ := 0.01 * Real.sqrt 365
    if 0 < annualVolatility then annualReturn / annualVolatility else 0
  else 0

/-- Sortino ratio, `metrics_calculator.py` lines 83-97.  With more than
one return: `downside = min(r - 0, 0)` pointwise,
`dd = sqrt(mean(square(downside)))`, `mu_excess = mean(r - 0)`;
result `(mu_excess / dd) * sqrt(periods_per_year)` when `dd > 0`, else
`np.inf` when `mu_excess > 0`, else `0.0`.  Otherwise `0.0`. -/
noncomputable def sortinoRatio (r : List ℚ) (ppy : ℚ) : RVal :=
  if 1 < r.length then
    let downside := r.map (fun x => min (x - 0) 0)
    let dd : ℝ := Real.sqrt ((qmean (downside.map (fun x => x ^ 2)) : ℚ) : ℝ)
    let muExcess : ℚ := qmean (r.map (fun x => x - 0))
    if 0 < dd then .fin (((muExcess : ℝ) / dd) * Real.sqrt (ppy : ℝ))
    else if 0 < muExcess then .inf else .fin 0
  else .fin 0

/-- CAGR, `metrics_calculator.py` lines 100-112.  With truthy positive
`n_days`: `(1 + net_pnl_pct/100) ** (365/n_days) - 1`.  Else, with a
non-empty series: compound the series and annualize via
`(1 + total) ** (periods_per_year / max(len(r), 1)) - 1`.  Else `0.0`.
(Python promotes a negative base with fractional exponent to a complex
number; that degenerate regime is modelled by `Real.rpow`.) -/
noncomputable def cagrOf (netPnlPct nDays : ℚ) (r : List ℚ) (ppy : ℚ) : ℝ :=
  if nDays ≠ 0 ∧ 0 < nDays then
    let totalReturn : ℝ := (netPnlPct : ℝ) / 100
    Real.rpow (1 + totalReturn) (365 / (nDays : ℝ)) - 1
  else if 0 < r.length then
    let totalReturn : ℝ := (((r.map (fun x => 1 + x)).prod : ℚ) : ℝ) - 1
    Real.rpow (1 + totalReturn) ((ppy : ℝ) / (max r.length 1 : ℕ)) - 1
  else 0

/-- Calmar ratio, `metrics_calculator.py` lines 130-136:
`cagr / abs(max_dd)` when `max_dd < 0`, else `np.inf` when `cagr > 0`,
else `0.0`. -/
noncomputable def calmarRatio (cagr : ℝ) (maxDD : ℚ) : RVal :=
  if maxDD < 0 then .fin (cagr / |(maxDD : ℝ)|)
  else if 0 < cagr then .inf else .fin 0

/-- The dictionary returned by `calculate_performance_ratios`. -/
structure Ratios where
  sharpe_ratio : ℝ
  sortino_ratio : RVal
  calmar_ratio : RVal

/-- The body of the `try` block of `calculate_performance_ratios`
(`metrics_calculator.py` lines 14-149), in source order:
`net_pnl_pct`, duration, Sharpe, return-series preparation,
annualization factor, Sortino, CAGR, maximum drawdown, Calmar, and the
final dict (Sharpe sanitized through `np.isfinite`).  `.error ()` is any
exception raised inside the block. -/
noncomputable def calcRatiosInner (b : Bundle) (executors : List PyVal) :
    Except Unit Ratios := do
  let netPnlPct ← PyVal.pyFloat (PyVal.pyOr b.net_pnl_pct (.num 0))
  let nDays ← computeNDays b
  let sharpe := sharpeRatio netPnlPct nDays
  let r ← prepareReturns netPnlPct executors
  let ppy := periodsPerYear nDays r
  let sortino := sortinoRatio r ppy
  let cagr := cagrOf netPnlPct nDays r ppy
  let maxDD := maxDrawdown r
  let calmar := calmarRatio cagr maxDD
  return { sharpe_ratio := if pyIsFinite sharpe then sharpe else 0
           sortino_ratio := sortino
           calmar_ratio := calmar }

/-- `calculate_performance_ratios` (`metrics_calculator.py` lines 8-156):
the `try` body, with every exception caught and replaced by the
all-zeros dictionary. -/
noncomputable def calculate_performance_ratios (b : Bundle)
    (executors : List PyVal) : Ratios :=
  match calcRatiosInner b executors with
  | .ok out => out
  | .error _ => { sharpe_ratio := 0, sortino_ratio := .fin 0,
                  calmar_ratio := .fin 0 }

/-! ## Batch backtesting service and registry

`src/services/batch_backtesting_service.py` and the endpoints of
`src/routers/backtesting.py`.  The evaluator (`run_backtesting` of the
external engine) is a collaborator; its output dict is modelled by
`EngineOutput`, keeping the two parts the repository reads: the inner
`"results"` mapping and the executors' `net_pnl_pct` values.  Job
configurations are opaque `PyVal`s. -/

/-- String-keyed dict lookup with default: `d.get(k, dflt)`. -/
def dictGet (d : List (String × PyVal)) (k : String) (dflt : PyVal) : PyVal :=
  match d.find? (fun p => p.1 = k) with
  | some p => p.2
  | Option.none => dflt

/-- The dict returned by the evaluator on a (truthy) success:
`resultsMap` is its inner `"results"` mapping, `executors` the
`net_pnl_pct` values of its trade records. -/
structure EngineOutput where
  resultsMap : List (String × PyVal)
  executors : List PyVal

/-- One element of `result.results`: the `processed_result` dict built in
`_execute_single_backtesting` (`config_index`, `config`, `results`; the
wall-clock `timestamp` is not modelled). -/
structure ConfigResult where
  config_index : ℕ
  config : PyVal
  rawResult : EngineOutput

/-- One element of `result.errors` (again without the timestamp). -/
structure ErrorRecord where
  config_index : ℕ
  config : PyVal
  error : String

/-- `BatchBacktestingResult.status` values. -/
inductive Status where
  | pending
  | running
  | completed
  | failed
deriving DecidableEq, Repr

/-- The `BatchBacktestingResult` record of a batch job. -/
structure Job where
  status : Status
  total_configs : ℕ
  completed_configs : ℕ
  failed_configs : ℕ
  results : List ConfigResult
  errors : List ErrorRecord
  progress_percentage : ℚ

/-- The job record created by `start_batch_backtesting`. -/
def initJob (n : ℕ) : Job :=
  { status := .pending, total_configs := n, completed_configs := 0,
    failed_configs := 0, results := [], errors := [],
    progress_percentage := 0 }

/-- `result.status = "running"` at the start of
`_execute_batch_backtesting`. -/
def setRunning (j : Job) : Job := { j with status := .running }

/-- The outcome of one `run_backtesting` call (together with the
preceding config cleaning): `raised` for any exception, `valid` for a
truthy dict result, `invalid` for a falsy or non-dict result
(the `if backtesting_results and isinstance(backtesting_results, dict)`
check). -/
inductive EvalOutcome where
  | raised (msg : String)
  | invalid
  | valid (out : EngineOutput)

/-- `_execute_single_backtesting`
(`batch_backtesting_service.py` lines 90-161): on a valid result, append
a `processed_result` and increment `completed_configs`; on an invalid
result, record `"Invalid backtesting results"` and increment
`failed_configs`; on an exception, record its message and increment
`failed_configs`.  In every case recompute `progress_percentage =
(completed + failed) / total * 100` (the division is exact in `ℚ`; a
zero `total_configs` would raise in Python and is excluded by the
submission validation). -/
def execSingle (j : Job) (idx : ℕ) (cfg : PyVal) (outcome : EvalOutcome) :
    Job :=
  let j' :=
    match outcome with
    | .valid out =>
      { j with results := j.results ++ [ConfigResult.mk idx cfg out],
               completed_configs := j.completed_configs + 1 }
    | .invalid =>
      { j with errors := j.errors ++ [ErrorRecord.mk idx cfg "Invalid backtesting results"],
               failed_configs := j.failed_configs + 1 }
    | .raised msg =>
      { j with errors := j.errors ++ [ErrorRecord.mk idx cfg msg],
               failed_configs := j.failed_configs + 1 }
  { j' with progress_percentage :=
      (((j'.completed_configs + j'.failed_configs : ℕ) : ℚ)
        / (j'.total_configs : ℚ)) * 100 }

/-- The terminal-status computation at the end of
`_execute_batch_backtesting` (lines 64-72):
`completed` when `failed_configs == 0`, `completed` when
`completed_configs > 0`, else `failed`; then
`progress_percentage = 100.0`. -/
def finalizeJob (j : Job) : Job :=
  { j with
    status :=
      if j.failed_configs = 0 then .completed
      else if 0 < j.completed_configs then .completed
      else .failed
    progress_percentage := 100 }

/-- Reachable job-record states of a batch with `n` configurations.
`_execute_batch_backtesting` sets the record running, spawns one unit of
work per configuration (each unit performs exactly one `execSingle`
commit, so commits number at most `n`), and computes the terminal status
only after `asyncio.gather` has seen all `n` units finish. -/
inductive JobReach (n : ℕ) : Job → Prop where
  | created : JobReach n (initJob n)
  | started {j : Job} : JobReach n j → j.status = .pending →
      JobReach n (setRunning j)
  | item {j : Job} (idx : ℕ) (cfg : PyVal) (outcome : EvalOutcome) :
      JobReach n j → j.status = .running →
      j.completed_configs + j.failed_configs < n →
      JobReach n (execSingle j idx cfg outcome)
  | finalized {j : Job} : JobReach n j → j.status = .running →
      j.completed_configs + j.failed_configs = n →
      JobReach n (finalizeJob j)

/-- The reduced per-item projection built by
`get_batch_backtesting_results` (`routers/backtesting.py` lines 352-368):
each metric is read from the stored bundle's inner `"results"` mapping
with default `0`. -/
structure OptimizedResult where
  config_index : ℕ
  config : PyVal
  net_pnl : PyVal
  net_pnl_pct : PyVal
  total_positions : PyVal
  accuracy : PyVal
  sharpe_ratio : PyVal
  sortino_ratio : PyVal
  calmar_ratio : PyVal
  max_drawdown_pct : PyVal

/-- `optimized_res` for one stored result. -/
def optimizeResult (res : ConfigResult) : OptimizedResult :=
  { config_index := res.config_index
    config := res.config
    net_pnl := dictGet res.rawResult.resultsMap "net_pnl" (.num 0)
    net_pnl_pct := dictGet res.rawResult.resultsMap "net_pnl_pct" (.num 0)
    total_positions := dictGet res.rawResult.resultsMap "total_positions" (.num 0)
    accuracy := dictGet res.rawResult.resultsMap "accuracy" (.num 0)
    sharpe_ratio := dictGet res.rawResult.resultsMap "sharpe_ratio" (.num 0)
    sortino_ratio := dictGet res.rawResult.resultsMap "sortino_ratio" (.num 0)
    calmar_ratio := dictGet res.rawResult.resultsMap "calmar_ratio" (.num 0)
    max_drawdown_pct := dictGet res.rawResult.resultsMap "max_drawdown_pct" (.num 0) }

/-- The numeric value of a scalar when it is a number, `0` otherwise
(used to compare a reported metric with a computed real value). -/
def pyNumVal : PyVal → ℝ
  | .num x => (x : ℝ)
  | _ => 0

/-- The `Bundle` the ratio calculator would receive for an evaluator
output: the relevant keys of its inner `"results"` mapping. -/
def bundleOf (out : EngineOutput) : Bundle :=
  { net_pnl_pct := dictGet out.resultsMap "net_pnl_pct" (.num 0)
    start_time := dictGet out.resultsMap "start_time" .none
    end_time := dictGet out.resultsMap "end_time" .none
    n_days := dictGet out.resultsMap "n_days" (.num 0)
    max_drawdown_pct := dictGet out.resultsMap "max_drawdown_pct" .none }

/-! ## Registry operations (HTTP endpoints) -/

/-- The service's `active_tasks` mapping (dict keys are unique; `del`
removes the key). -/
def Registry := List (String × Job)

/-- `get_task_status`: `self.active_tasks.get(task_id)`. -/
def getTaskStatus (reg : Registry) (taskId : String) : Option Job :=
  (List.find? (fun p => p.1 = taskId) reg).map (fun p => p.2)

/-- The summary returned by `get_batch_backtesting_status`. -/
structure StatusSummary where
  task_id : String
  status : Status
  total_configs : ℕ
  completed_configs : ℕ
  failed_configs : ℕ
  progress_percentage : ℚ
  results_count : ℕ
  errors_count : ℕ

/-- `GET /batch-backtesting-status/{task_id}`
(`routers/backtesting.py` lines 277-300): 404 when the id is unknown,
otherwise the summary of the job record. -/
def statusEndpoint (reg : Registry) (taskId : String) :
    Except ℕ StatusSummary :=
  match getTaskStatus reg taskId with
  | Option.none => .error 404
  | some j =>
      .ok { task_id := taskId, status := j.status,
            total_configs := j.total_configs,
            completed_configs := j.completed_configs,
            failed_configs := j.failed_configs,
            progress_percentage := j.progress_percentage,
            results_count := j.results.length,
            errors_count := j.errors.length }

/-- The body returned by `GET /batch-backtesting-results/{task_id}`. -/
structure ResultsBody where
  task_id : String
  status : Status
  total_configs : ℕ
  completed_configs : ℕ
  failed_configs : ℕ
  progress_percentage : ℚ
  results : List OptimizedResult
  errors : List ErrorRecord

/-- `GET /batch-backtesting-results/{task_id}`
(`routers/backtesting.py` lines 330-385): 404 when the id is unknown,
otherwise the job record with each stored result reduced through
`optimizeResult`. -/
def resultsEndpoint (reg : Registry) (taskId : String) :
    Except ℕ ResultsBody :=
  match getTaskStatus reg taskId with
  | Option.none => .error 404
  | some j =>
      .ok { task_id := taskId, status := j.status,
            total_configs := j.total_configs,
            completed_configs := j.completed_configs,
            failed_configs := j.failed_configs,
            progress_percentage := j.progress_percentage,
            results := j.results.map optimizeResult,
            errors := j.errors }

/-- `DELETE /batch-backtesting-tasks/{task_id}`
(`routers/backtesting.py` lines 401-424): 404 when the id is unknown,
otherwise `del active_tasks[task_id]` and a deletion acknowledgement. -/
def deleteEndpoint (reg : Registry) (taskId : String) :
    Except ℕ Registry :=
  match getTaskStatus reg taskId with
  | Option.none => .error 404
  | some _ => .ok (reg.filter (fun p => p.1 ≠ taskId))

/-- `POST /run-batch-backtesting`
(`routers/backtesting.py` lines 233-243 together with
`start_batch_backtesting`): reject an empty config list and a list of
more than 1000 configs with HTTP 400 before any job record is created;
otherwise register a fresh pending job and return its id.  The returned
registry is the service state after the call. -/
def submitBatch (cfgs : List PyVal) (freshId : String) (reg : Registry) :
    Registry × Except ℕ String :=
  if cfgs = [] then (reg, .error 400)
  else if 1000 < cfgs.length then (reg, .error 400)
  else ((freshId, initJob cfgs.length) :: reg, .ok freshId)

/-! ## Bounded-concurrency executor (semaphore discipline)

`_execute_batch_backtesting` creates `asyncio.Semaphore(config.max_concurrent
or 5)` and each unit of work wraps its evaluator call in
`async with semaphore` (`_execute_single_backtesting_with_semaphore`).
The admission protocol is modelled as a transition system: `acquire`
moves a waiting unit into flight while consuming a permit, `release`
returns the permit when the evaluator call finishes. -/

/-- `config.max_concurrent or 5`: `None` and `0` are falsy, so both fall
back to the default of 5. -/
def effectiveMaxConcurrent : Option ℕ → ℕ
  | Option.none => 5
  | some m => if m ≠ 0 then m else 5

/-- State of the fan-out: unconsumed semaphore permits, units inside
`async with semaphore` (the in-flight evaluator calls), units not yet
admitted, and units finished. -/
structure ExecState where
  permits : ℕ
  inFlight : ℕ
  waiting : ℕ
  finished : ℕ
deriving DecidableEq, Repr

/-- Initial state: a fresh semaphore with `m` permits and all `n` units
waiting for admission. -/
def initExecState (m n : ℕ) : ExecState :=
  { permits := m, inFlight := 0, waiting := n, finished := 0 }

/-- One scheduler step of the semaphore protocol. -/
inductive ExecStep : ExecState → ExecState → Prop where
  | acquire {s : ExecState} : 0 < s.permits → 0 < s.waiting →
      ExecStep s { permits := s.permits - 1, inFlight := s.inFlight + 1,
                   waiting := s.waiting - 1, finished := s.finished }
  | release {s : ExecState} : 0 < s.inFlight →
      ExecStep s { permits := s.permits + 1, inFlight := s.inFlight - 1,
                   waiting := s.waiting, finished := s.finished + 1 }

/-- States reachable by the batch fan-out with `m` permits and `n`
units. -/
inductive ExecReach (m n : ℕ) : ExecState → Prop where
  | init : ExecReach m n (initExecState m n)
  | step {s s' : ExecState} : ExecReach m n s → ExecStep s s' →
      ExecReach m n s'

/-! ## Theorems -/

/-- C10: `calculate_performance_ratios` is total: whenever the body of its
`try` block raises, the exception is caught and the all-zeros ratio
dictionary is returned instead of propagating the error. -/
theorem c10_calculator_catches_all_errors (b : Bundle)
    (executors : List PyVal)
    (h : calcRatiosInner b executors = .error ()) :
    calculate_performance_ratios b executors =
      { sharpe_ratio := 0, sortino_ratio := .fin 0, calmar_ratio := .fin 0 } := by
  unfold calculate_performance_ratios
  rw [h]

/-- Witness for C10: a bundle whose `net_pnl_pct` is a non-numeric object
makes `float(...)` raise, and the calculator returns the zero
dictionary. -/
theorem c10_witness :
    calcRatiosInner { net_pnl_pct := .obj } [] = .error () ∧
    calculate_performance_ratios { net_pnl_pct := .obj } [] =
      { sharpe_ratio := 0, sortino_ratio := .fin 0, calmar_ratio := .fin 0 } :=
  ⟨rfl, c10_calculator_catches_all_errors _ _ rfl⟩

/-- C8: a submission with an empty config list or more than 1000 configs
fails synchronously with HTTP 400 and leaves the registry unchanged (no
job record is created); a submission with 1 to 1000 configs succeeds,
registers a fresh pending job, and returns its id. -/
theorem c8_submission_validation (cfgs : List PyVal) (freshId : String)
    (reg : Registry) :
    ((cfgs = [] ∨ 1000 < cfgs.length) →
        submitBatch cfgs freshId reg = (reg, .error 400)) ∧
    (1 ≤ cfgs.length → cfgs.length ≤ 1000 →
        submitBatch cfgs freshId reg =
          ((freshId, initJob cfgs.length) :: reg, .ok freshId)) := by
  constructor
  · rintro (h | h)
    · simp [submitBatch, h]
    · have hne : cfgs ≠ [] := by
        intro he
        subst he
        simp at h
      simp [submitBatch, hne, h]
  · intro h1 h2
    have hne : cfgs ≠ [] := List.length_pos.mp h1
    simp [submitBatch, hne, Nat.not_lt.mpr h2]

/-- Witness for C8: the empty submission is rejected with 400 and creates
nothing; a one-config submission is accepted. -/
theorem c8_witness :
    submitBatch [] "t0" [] = (([] : Registry), .error 400) ∧
    submitBatch [PyVal.obj] "t1" [] =
      ([("t1", initJob 1)], .ok "t1") :=
  ⟨(c8_submission_validation [] "t0" []).1 (Or.inl rfl),
   (c8_submission_validation [PyVal.obj] "t1" []).2 (by simp) (by simp)⟩

/-- C9: for an unknown job id, the status, results, and delete endpoints
each fail with 404; for a known id, a successful delete followed by a
status query on that id fails with 404. -/
theorem c9_not_found_semantics (reg : Registry) (taskId : String) :
    (getTaskStatus reg taskId = Option.none →
        statusEndpoint reg taskId = .error 404 ∧
        resultsEndpoint reg taskId = .error 404 ∧
        deleteEndpoint reg taskId = .error 404) ∧
    (∀ j, getTaskStatus reg taskId = some j →
        deleteEndpoint reg taskId =
            .ok (reg.filter (fun p => p.1 ≠ taskId)) ∧
        statusEndpoint (reg.filter (fun p => p.1 ≠ taskId)) taskId =
            .error 404) := by
  constructor
  · intro h
    exact ⟨by simp [statusEndpoint, h], by simp [resultsEndpoint, h],
           by simp [deleteEndpoint, h]⟩
  · intro j hj
    refine ⟨by simp [deleteEndpoint, hj], ?_⟩
    have hgone : getTaskStatus (reg.filter (fun p => p.1 ≠ taskId)) taskId
        = Option.none := by
      unfold getTaskStatus
      rw [List.find?_eq_none.mpr]
      · rfl
      · intro p hp
        have := List.of_mem_filter hp
        simpa using this
    simp only [ne_eq, decide_not] at hgone
    simp [statusEndpoint, hgone]

/-- Witness for C9: a singleton registry; the unknown id `"b"` 404s
everywhere, and after deleting the known id `"a"` its status is 404. -/
theorem c9_witness :
    (statusEndpoint [("a", initJob 1)] "b" = .error 404 ∧
     resultsEndpoint [("a", initJob 1)] "b" = .error 404 ∧
     deleteEndpoint [("a", initJob 1)] "b" = .error 404) ∧
    (deleteEndpoint [("a", initJob 1)] "a" = .ok [] ∧
     statusEndpoint [] "a" = .error 404) := by
  constructor
  · exact (c9_not_found_semantics [("a", initJob 1)] "b").1 (by rfl)
  · have h := (c9_not_found_semantics [("a", initJob 1)] "a").2
      (initJob 1) (by rfl)
    simpa using h

/-- C7: with the parallelism cap taken as `max_concurrent or 5`, no
reachable state of the semaphore-gated fan-out has more than the cap's
worth of evaluator calls in flight. -/
theorem c7_inflight_bounded (mc : Option ℕ) (n : ℕ) (s : ExecState)
    (h : ExecReach (effectiveMaxConcurrent mc) n s) :
    s.inFlight ≤ effectiveMaxConcurrent mc := by
  suffices hs : s.inFlight + s.permits = effectiveMaxConcurrent mc by omega
  induction h with
  | init => simp [initExecState]
  | step hr hstep ih =>
      cases hstep with
      | acquire hp hw => simp only []; omega
      | release hf => simp only []; omega

/-- Witness for C7: after one admission with the default cap
(`max_concurrent = None`), one call is in flight, within the cap of 5. -/
theorem c7_witness :
    ExecState.inFlight
        { permits := 4, inFlight := 1, waiting := 2, finished := 0 } ≤
      effectiveMaxConcurrent Option.none := by
  apply c7_inflight_bounded Option.none 3
  have h0 : ExecReach (effectiveMaxConcurrent Option.none) 3
      (initExecState (effectiveMaxConcurrent Option.none) 3) :=
    ExecReach.init
  have he : initExecState (effectiveMaxConcurrent Option.none) 3 =
      { permits := 5, inFlight := 0, waiting := 3, finished := 0 } := rfl
  rw [he] at h0
  exact ExecReach.step h0 (ExecStep.acquire (by decide) (by decide))

/-- C6: once all items have finished (the counters sum to the total, which
is at least 1 for any validated submission), the terminal status is
`failed` exactly when no item succeeded, and `completed` otherwise, even
with a non-zero failure count. -/
theorem c6_terminal_status (j : Job) (h1 : 1 ≤ j.total_configs)
    (h2 : j.completed_configs + j.failed_configs = j.total_configs) :
    (finalizeJob j).status = .failed ↔ j.completed_configs = 0 := by
  constructor
  · intro h
    by_contra hc
    by_cases hf : j.failed_configs = 0
    · simp [finalizeJob, hf] at h
    · by_cases hcp : 0 < j.completed_configs
      · simp [finalizeJob, hf, hcp] at h
      · omega
  · intro hc
    have hf : j.failed_configs ≠ 0 := by omega
    simp [finalizeJob, hf, hc]

/-- Witness for C6: a 1-config batch whose only item failed finalizes to
`failed`; a 2-config batch with one success and one failure finalizes to
`completed`. -/
theorem c6_witness :
    (finalizeJob { status := .running, total_configs := 1,
                   completed_configs := 0, failed_configs := 1,
                   results := [], errors := [],
                   progress_percentage := 100 }).status = .failed ∧
    (finalizeJob { status := .running, total_configs := 2,
                   completed_configs := 1, failed_configs := 1,
                   results := [], errors := [],
                   progress_percentage := 100 }).status ≠ .failed := by
  constructor
  · exact (c6_terminal_status _ (by decide) (by decide)).mpr rfl
  · intro h
    have h2 := (c6_terminal_status
      { status := .running, total_configs := 2, completed_configs := 1,
        failed_configs := 1, results := [], errors := [],
        progress_percentage := 100 } (by decide) (by decide)).mp h
    exact absurd h2 (by decide)

/-- `_execute_single_backtesting` never touches `status`. -/
theorem execSingle_status (j : Job) (idx : ℕ) (cfg : PyVal)
    (o : EvalOutcome) : (execSingle j idx cfg o).status = j.status := by
  cases o <;> rfl

/-- `_execute_single_backtesting` never touches `total_configs`. -/
theorem execSingle_total (j : Job) (idx : ℕ) (cfg : PyVal)
    (o : EvalOutcome) :
    (execSingle j idx cfg o).total_configs = j.total_configs := by
  cases o <;> rfl

/-- Each unit of work increments exactly one of the two counters. -/
theorem execSingle_counts (j : Job) (idx : ℕ) (cfg : PyVal)
    (o : EvalOutcome) :
    (execSingle j idx cfg o).completed_configs +
      (execSingle j idx cfg o).failed_configs =
    j.completed_configs + j.failed_configs + 1 := by
  cases o <;> simp [execSingle] <;> omega

/-- C5 (amended): at every reachable state of a batch of `n`
configurations, `completed + failed ≤ total = n`, and a terminal status
implies `completed + failed = total`.  The converse direction of the
claim fails: after the last unit of work commits, the counters already
sum to the total while the status is still `running` until the
orchestrator computes the terminal status (see the counterexample). -/
theorem c5_progress_invariant (n : ℕ) (j : Job) (h : JobReach n j) :
    j.total_configs = n ∧
    j.completed_configs + j.failed_configs ≤ n ∧
    ((j.status = .completed ∨ j.status = .failed) →
      j.completed_configs + j.failed_configs = n) := by
  induction h with
  | created => simp [initJob]
  | started hr hp ih =>
      refine ⟨ih.1, ih.2.1, ?_⟩
      intro hterm
      rcases hterm with hterm | hterm <;> cases hterm
  | item idx cfg outcome hr hs hlt ih =>
      rename_i j'
      refine ⟨by rw [execSingle_total]; exact ih.1, ?_, ?_⟩
      · rw [execSingle_counts]
        omega
      · intro hterm
        rw [execSingle_status] at hterm
        rcases hterm with hterm | hterm <;> rw [hs] at hterm <;> cases hterm
  | finalized hr hs he ih =>
      exact ⟨ih.1, by simp [finalizeJob]; omega, fun _ => by
        simp only [finalizeJob]
        exact he⟩

/-- Counterexample for C5: in a 1-config batch, the state reached right
after the single item fails is reachable, has `completed + failed =
total`, and yet is not terminal — its status is still `running`, so
"`completed + failed == total` exactly at terminal states" is false. -/
theorem c5_counterexample :
    JobReach 1 (execSingle (setRunning (initJob 1)) 0 PyVal.obj
        (EvalOutcome.raised "boom")) ∧
    (execSingle (setRunning (initJob 1)) 0 PyVal.obj
        (EvalOutcome.raised "boom")).completed_configs +
      (execSingle (setRunning (initJob 1)) 0 PyVal.obj
        (EvalOutcome.raised "boom")).failed_configs =
      (execSingle (setRunning (initJob 1)) 0 PyVal.obj
        (EvalOutcome.raised "boom")).total_configs ∧
    (execSingle (setRunning (initJob 1)) 0 PyVal.obj
        (EvalOutcome.raised "boom")).status ≠ .completed ∧
    (execSingle (setRunning (initJob 1)) 0 PyVal.obj
        (EvalOutcome.raised "boom")).status ≠ .failed := by
  refine ⟨?_, by decide, by decide, by decide⟩
  exact JobReach.item 0 PyVal.obj (EvalOutcome.raised "boom")
    (JobReach.started JobReach.created rfl) rfl (by decide)

/-- Witness for C5: the invariant at the concrete reachable state of a
2-config batch that has just started running. -/
theorem c5_witness :
    (setRunning (initJob 2)).total_configs = 2 ∧
    (setRunning (initJob 2)).completed_configs +
        (setRunning (initJob 2)).failed_configs ≤ 2 ∧
    (((setRunning (initJob 2)).status = .completed ∨
        (setRunning (initJob 2)).status = .failed) →
      (setRunning (initJob 2)).completed_configs +
        (setRunning (initJob 2)).failed_configs = 2) :=
  c5_progress_invariant 2 _ (JobReach.started JobReach.created rfl)

/-- C4: for a series of at least 2 elements, Sortino is
`(mean r / rms (min r 0)) * sqrt ppy` when the downside deviation is
positive, `+∞` when it vanishes with a positive mean, and `0` when it
vanishes with a non-positive mean; for fewer than 2 elements, Sortino is
`0`. -/
theorem c4_sortino_spec (r : List ℚ) (ppy : ℚ) :
    (2 ≤ r.length →
      sortinoRatio r ppy =
        (if 0 < Real.sqrt ((qmean (r.map (fun x => (min x 0) ^ 2)) : ℚ) : ℝ)
         then
           RVal.fin (((qmean r : ℚ) : ℝ) /
               Real.sqrt ((qmean (r.map (fun x => (min x 0) ^ 2)) : ℚ) : ℝ) *
             Real.sqrt ((ppy : ℚ) : ℝ))
         else if 0 < qmean r then RVal.inf else RVal.fin 0)) ∧
    (r.length < 2 → sortinoRatio r ppy = .fin 0) := by
  constructor
  · intro h
    have h1 : 1 < r.length := h
    have hdown : r.map (fun x : ℚ => min (x - 0) 0) =
        r.map (fun x : ℚ => min x 0) := by
      simp
    have hmu : r.map (fun x : ℚ => x - 0) = r := by
      simp
    have hsq : (r.map (fun x : ℚ => min x 0)).map (fun x : ℚ => x ^ 2) =
        r.map (fun x : ℚ => (min x 0) ^ 2) := by
      rw [List.map_map]
      rfl
    rw [sortinoRatio, if_pos h1]
    simp only [hdown, hmu, hsq]
  · intro h
    have h1 : ¬ 1 < r.length := by omega
    rw [sortinoRatio, if_neg h1]

/-- Witness for C4: the series `[1%, -2%]` with the default 252
annualization has mean `-1/200`, downside mean-square `1/5000`, and a
strictly positive downside deviation, so the first branch applies. -/
theorem c4_witness :
    sortinoRatio [1/100, -(1/50)] 252 =
      RVal.fin (((-(1/200) : ℚ) : ℝ) / Real.sqrt ((1/5000 : ℚ) : ℝ) *
        Real.sqrt ((252 : ℚ) : ℝ)) := by
  have h := (c4_sortino_spec [1/100, -(1/50)] 252).1 (by simp)
  rw [h]
  have hq2 : qmean (([1/100, -(1/50)] : List ℚ).map
      (fun x => (min x 0) ^ 2)) = 1/5000 := by
    have e1 : min (1/100 : ℚ) 0 = 0 := by
      rw [min_eq_right]
      norm_num
    have e2 : min (-(1/50) : ℚ) 0 = -(1/50) := by
      rw [min_eq_left]
      norm_num
    simp only [List.map_cons, List.map_nil, e1, e2, qmean]
    norm_num
  have hq1 : qmean ([1/100, -(1/50)] : List ℚ) = -(1/200) := by
    simp only [qmean]
    norm_num
  rw [hq1, hq2, if_pos]
  exact Real.sqrt_pos.mpr (by norm_num)

/-- The prepared return series as the claim words it: every available
per-trade percentage return divided by 100 (without the source's
filtering of zero-valued returns), with the same aggregate fallback.
Stated for comparison with `prepareReturns`. -/
def claimedPrepareReturns (netPnlPct : ℚ) (executors : List PyVal) :
    List ℚ :=
  if executors ≠ [] then
    executors.filterMap (fun e =>
      match e with
      | .num x => some (x / 100)
      | _ => Option.none)
  else if netPnlPct ≠ 0 then [netPnlPct / 100] else []

/-- Counterexample for C3: with trades `[0%, 5%]` the source drops the
zero-valued return and prepares `[0.05]`, while the claim's reading
prepares `[0, 0.05]`. -/
theorem c3_counterexample :
    prepareReturns 0 [.num 0, .num 5] ≠
      .ok (claimedPrepareReturns 0 [.num 0, .num 5]) := by
  intro h
  have hl : prepareReturns 0 [.num 0, .num 5] = .ok [5/100] := by
    simp only [prepareReturns, extractExecutorReturns, PyVal.pyFloat,
      PyVal.pyNeZero]
    norm_num
    simp
  have hr : claimedPrepareReturns 0 [.num 0, .num 5] = [0/100, 5/100] := by
    simp [claimedPrepareReturns]
  rw [hl, hr] at h
  simp at h

/-- Per-trade extraction over records whose `net_pnl_pct` is a number or
`None`: every present non-zero value contributes its hundredth. -/
theorem extractExecutorReturns_clean (l : List PyVal)
    (h : ∀ e ∈ l, e = PyVal.none ∨ ∃ x, e = PyVal.num x) :
    extractExecutorReturns l =
      .ok (l.filterMap (fun e =>
        match e with
        | PyVal.num x => if x ≠ 0 then some (x / 100) else Option.none
        | _ => Option.none)) := by
  induction l with
  | nil => rfl
  | cons e rest ih =>
      have hrest := ih (fun x hx => h x (List.mem_cons_of_mem e hx))
      rcases h e (List.mem_cons_self e rest) with he | ⟨x, he⟩ <;> subst he
      · simpa [extractExecutorReturns] using hrest
      · by_cases hx : x = 0
        · subst hx
          simpa [extractExecutorReturns, PyVal.pyNeZero] using hrest
        · simp [extractExecutorReturns, PyVal.pyNeZero, PyVal.pyFloat, hx,
            hrest]

/-- C3 (amended): over trade records carrying a numeric or missing
`net_pnl_pct`, the prepared series is each present AND non-zero
per-trade percentage return divided by 100 when the trade list is
non-empty; otherwise the one-element aggregate series when
`net_pnl_pct` is non-zero; otherwise empty.  (The source filters out
zero-valued and `None` per-trade returns; the claim as stated keeps
zero-valued ones.) -/
theorem c3_prepared_series (netPnlPct : ℚ) (executors : List PyVal)
    (hclean : ∀ e ∈ executors, e = PyVal.none ∨ ∃ x, e = PyVal.num x) :
    prepareReturns netPnlPct executors =
      .ok (if executors ≠ [] then
             executors.filterMap (fun e =>
               match e with
               | PyVal.num x =>
                   if x ≠ 0 then some (x / 100) else Option.none
               | _ => Option.none)
           else if netPnlPct ≠ 0 then [netPnlPct / 100] else []) := by
  by_cases he : executors = []
  · subst he
    simp [prepareReturns]
  · rw [prepareReturns, if_pos he, if_pos he]
    exact extractExecutorReturns_clean executors hclean

/-- Witness for C3: trades `[None, 0%, 5%, -3%]` prepare `[0.05, -0.03]`;
with no trades and aggregate `7%`, the series is `[0.07]`. -/
theorem c3_witness :
    prepareReturns 2 [PyVal.none, .num 0, .num 5, .num (-3)] =
      .ok [5/100, -3/100] ∧
    prepareReturns 7 [] = .ok [7/100] := by
  constructor
  · have h := c3_prepared_series 2 [PyVal.none, .num 0, .num 5, .num (-3)]
      (by
        intro e hx
        fin_cases hx
        · exact Or.inl rfl
        · exact Or.inr ⟨0, rfl⟩
        · exact Or.inr ⟨5, rfl⟩
        · exact Or.inr ⟨-3, rfl⟩)
    rw [h]
    norm_num [List.filterMap_cons]
    decide
  · have h := c3_prepared_series 7 [] (by intro e hx; cases hx)
    rw [h]
    norm_num

/-- The drawdown magnitude as the claim words it: prefer the bundle's
explicit `|max_drawdown_pct| / 100` when present, otherwise the
equity-curve magnitude for series of length at least 2, otherwise the 1%
fallback.  Stated for comparison with `maxDrawdown`. -/
def claimedMaxDrawdownMagnitude (b : Bundle) (r : List ℚ) : ℚ :=
  match b.max_drawdown_pct with
  | .num m => |m| / 100
  | _ =>
    if 2 ≤ r.length then
      |listMin (List.zipWith (fun c m => (c - m) / m) (cumProd r)
        (runningMax (cumProd r)))|
    else 1/100

/-- Counterexample for C2: a bundle carrying an explicit
`max_drawdown_pct = 50` together with the prepared series
`[0.1, -0.2]`.  The claim's reading uses `|50|/100 = 1/2`; the source
ignores the explicit value and computes `1/5` from the equity curve. -/
theorem c2_counterexample :
    claimedMaxDrawdownMagnitude { max_drawdown_pct := .num 50 }
        [1/10, -(1/5)] ≠
      |maxDrawdown [1/10, -(1/5)]| := by
  have hl : claimedMaxDrawdownMagnitude { max_drawdown_pct := .num 50 }
      [1/10, -(1/5)] = 1/2 := by
    norm_num [claimedMaxDrawdownMagnitude]
  have hr : |maxDrawdown [1/10, -(1/5)]| = 1/5 := by
    norm_num [maxDrawdown, cumProd, runningMax, listMin, List.scanl]
  rw [hl, hr]
  norm_num

/-- C2 (amended): the calculator never consults the bundle's explicit
`max_drawdown_pct` (varying it cannot change the result); the drawdown
fed to Calmar is, for at least 2 returns, the (non-positive) minimum of
`(equity - peak) / peak` over the cumulative-product equity curve; for
exactly one return, that return itself when negative, else the `-1%`
fallback; and the `-1%` fallback for an empty series. -/
theorem c2_max_drawdown (b : Bundle) (v : PyVal) (executors : List PyVal)
    (r : List ℚ) (x : ℚ) :
    calcRatiosInner { b with max_drawdown_pct := v } executors =
        calcRatiosInner b executors ∧
    (2 ≤ r.length →
      maxDrawdown r =
        listMin (List.zipWith (fun c m => (c - m) / m) (cumProd r)
          (runningMax (cumProd r)))) ∧
    maxDrawdown [x] = (if x < 0 then x else -(1/100)) ∧
    maxDrawdown ([] : List ℚ) = -(1/100) := by
  refine ⟨rfl, ?_, ?_, rfl⟩
  · intro h
    have h1 : 1 < r.length := h
    rw [maxDrawdown, if_pos h1]
    intro y hy
    subst hy
    simp at h1
  · simp [maxDrawdown]

/-- Witness for C2: the explicit-value insensitivity at a concrete
bundle, and the three drawdown branches at `[0.1, -0.2]`, `[-0.03]` and
`[]`. -/
theorem c2_witness :
    calcRatiosInner { ({} : Bundle) with max_drawdown_pct := .num 50 } [] =
        calcRatiosInner ({} : Bundle) [] ∧
    maxDrawdown [1/10, -(1/5)] =
      listMin (List.zipWith (fun c m => (c - m) / m)
        (cumProd [1/10, -(1/5)]) (runningMax (cumProd [1/10, -(1/5)]))) ∧
    maxDrawdown [-(3/100)] =
      (if (-(3/100) : ℚ) < 0 then -(3/100) else -(1/100)) ∧
    maxDrawdown ([] : List ℚ) = -(1/100) :=
  have h := c2_max_drawdown {} (.num 50) [] [1/10, -(1/5)] (-(3/100))
  ⟨h.1, h.2.1 (by norm_num), h.2.2.1, h.2.2.2⟩

/-- Monadic reduction for the exception embedding. -/
theorem exceptBind_ok {α β : Type} (x : α) (f : α → Except Unit β) :
    (Except.ok x >>= f) = f x := rfl

/-- Pure values in the exception embedding. -/
theorem exceptPure {β : Type} (x : β) :
    (pure x : Except Unit β) = Except.ok x := rfl

/-- Evaluation of the calculator when every fallible step succeeds. -/
theorem calcRatiosInner_ok (b : Bundle) (executors : List PyVal)
    (netPnl nDays : ℚ) (r : List ℚ)
    (h1 : PyVal.pyFloat (PyVal.pyOr b.net_pnl_pct (.num 0)) = .ok netPnl)
    (h2 : computeNDays b = .ok nDays)
    (h3 : prepareReturns netPnl executors = .ok r) :
    calcRatiosInner b executors = .ok
      { sharpe_ratio :=
          if pyIsFinite (sharpeRatio netPnl nDays) then
            sharpeRatio netPnl nDays
          else 0
        sortino_ratio := sortinoRatio r (periodsPerYear nDays r)
        calmar_ratio :=
          calmarRatio (cagrOf netPnl nDays r (periodsPerYear nDays r))
            (maxDrawdown r) } := by
  simp only [calcRatiosInner, h1, h2, h3, exceptBind_ok, exceptPure]

/-- The evaluator bundle used against C1: aggregate `net_pnl_pct = 10`
over a one-day window and no precomputed ratio fields. -/
def c1Output : EngineOutput :=
  { resultsMap := [("net_pnl_pct", .num 10), ("start_time", .num 100),
                   ("end_time", .num 86500)],
    executors := [] }

/-- Counterexample for C1: the batch executor commits the evaluator's
bundle verbatim, so the Sharpe value the results endpoint reports for
this item is the missing-key default `0`, while the ratio engine applied
to the same bundle yields a non-zero Sharpe — the committed
`ConfigResult` does not carry the computed ratios. -/
theorem c1_counterexample :
    (execSingle (setRunning (initJob 1)) 0 PyVal.obj
        (.valid c1Output)).results =
      [ConfigResult.mk 0 PyVal.obj c1Output] ∧
    (execSingle (setRunning (initJob 1)) 0 PyVal.obj
        (.valid c1Output)).completed_configs = 1 ∧
    pyNumVal (optimizeResult (ConfigResult.mk 0 PyVal.obj c1Output)).sharpe_ratio ≠
      (calculate_performance_ratios (bundleOf c1Output)
          c1Output.executors).sharpe_ratio := by
  refine ⟨rfl, rfl, ?_⟩
  have hfield : (optimizeResult
      (ConfigResult.mk 0 PyVal.obj c1Output)).sharpe_ratio = .num 0 := rfl
  have hcarried :
      pyNumVal (optimizeResult
        (ConfigResult.mk 0 PyVal.obj c1Output)).sharpe_ratio = 0 := by
    rw [hfield]
    norm_num [pyNumVal]
  have h1 : PyVal.pyFloat (PyVal.pyOr (PyVal.num 10) (.num 0)) =
      .ok 10 := by
    norm_num [PyVal.pyOr, PyVal.truthy, PyVal.pyFloat]
  have h2 : computeNDays
      { net_pnl_pct := .num 10, start_time := .num 100,
        end_time := .num 86500, n_days := .num 0,
        max_drawdown_pct := .none } = .ok 1 := by
    norm_num [computeNDays, PyVal.truthy, PyVal.pyGT, PyVal.pySub]
  have h3 : prepareReturns 10 [] = .ok [1/10] := by
    norm_num [prepareReturns]
  have hok := calcRatiosInner_ok
    { net_pnl_pct := .num 10, start_time := .num 100,
      end_time := .num 86500, n_days := .num 0,
      max_drawdown_pct := .none } [] 10 1 [1/10] h1 h2 h3
  have hcalc : (calculate_performance_ratios (bundleOf c1Output)
      c1Output.executors).sharpe_ratio = sharpeRatio 10 1 := by
    show (calculate_performance_ratios
      { net_pnl_pct := .num 10, start_time := .num 100,
        end_time := .num 86500, n_days := .num 0,
        max_drawdown_pct := .none } []).sharpe_ratio = sharpeRatio 10 1
    rw [calculate_performance_ratios, hok]
    rfl
  have hvol : (0 : ℝ) < 0.01 * Real.sqrt 365 :=
    mul_pos (by norm_num) (Real.sqrt_pos.mpr (by norm_num))
  have hsharpe : sharpeRatio 10 1 ≠ 0 := by
    rw [sharpeRatio, if_pos (by norm_num), if_pos hvol]
    exact div_ne_zero (by norm_num) (ne_of_gt hvol)
  rw [hcarried, hcalc]
  exact fun h => hsharpe h.symm

/-- C1 (amended): on a successful (truthy dict) evaluation, the batch
executor commits a `ConfigResult` carrying the evaluator's raw bundle
unchanged and increments `completed`, leaving `failed` and `errors`
untouched; no ratio computation happens in the batch path, and when the
raw bundle has no `sharpe_ratio` entry the results endpoint reports the
default `0` for it. -/
theorem c1_success_commit (j : Job) (idx : ℕ) (cfg : PyVal)
    (out : EngineOutput)
    (hk : out.resultsMap.find? (fun p => p.1 = "sharpe_ratio") =
      Option.none) :
    execSingle j idx cfg (.valid out) =
      { j with results := j.results ++ [ConfigResult.mk idx cfg out],
               completed_configs := j.completed_configs + 1,
               progress_percentage :=
                 (((j.completed_configs + 1 + j.failed_configs : ℕ) : ℚ) /
                   (j.total_configs : ℚ)) * 100 } ∧
    (optimizeResult (ConfigResult.mk idx cfg out)).sharpe_ratio =
      .num 0 := by
  constructor
  · rfl
  · simp [optimizeResult, dictGet, hk]

/-- Witness for C1: the amended commit equation at the concrete 1-config
batch and bundle of the counterexample. -/
theorem c1_witness :
    execSingle (setRunning (initJob 1)) 0 PyVal.obj (.valid c1Output) =
      { setRunning (initJob 1) with
          results := (setRunning (initJob 1)).results ++
            [ConfigResult.mk 0 PyVal.obj c1Output],
          completed_configs :=
            (setRunning (initJob 1)).completed_configs + 1,
          progress_percentage :=
            ((((setRunning (initJob 1)).completed_configs + 1 +
                (setRunning (initJob 1)).failed_configs : ℕ) : ℚ) /
              ((setRunning (initJob 1)).total_configs : ℚ)) * 100 } ∧
    (optimizeResult (ConfigResult.mk 0 PyVal.obj c1Output)).sharpe_ratio =
      .num 0 :=
  c1_success_commit (setRunning (initJob 1)) 0 PyVal.obj c1Output rfl
